import Mathlib

/-!
Verification of the ITC2021 XML-to-ASP-facts transcoder
(Code/itc2021_fact_parser.py).

The Python script is a single-pass format transcoder: it reads a parsed
XML tournament-definition document and emits a list of ASP fact strings.
This file gives a shallow embedding of the script:

* Python strings are modelled through their character lists
  (String.data); str.split, str.strip, int() and str.lower() are
  re-implemented character by character so every definition evaluates
  inside the kernel.
* A raised-and-uncaught Python exception (ValueError from int(),
  TypeError from int(None)) is modelled as the Option value none,
  threaded through every fallible function.
* XML elements are modelled by their attribute lookup function
  (Element.get): a function from attribute names to Option String.
* The per-category mutable counter dictionary self.constraint_counters
  is modelled as an explicit counter map threaded through the nine
  category passes exactly in the order parse_xml_file calls them.
-/

namespace ITC2021

/-- Python whitespace test used by str.strip (ASCII range). -/
def pyIsSpace (c : Char) : Bool :=
  c = ' ' || c = '\t' || c = '\n' || c = '\r' || c = '\x0b' || c = '\x0c'

/-- Drop leading whitespace characters. -/
def dropSpace : List Char → List Char
  | [] => []
  | c :: cs => if pyIsSpace c then dropSpace cs else c :: cs

/-- Python str.strip(): whitespace removed from both ends. -/
def pyStrip (l : List Char) : List Char :=
  dropSpace ((dropSpace l.reverse).reverse)

/-- Python str.split(sep) for a one-character separator, e.g. ';' or ','.
    Like Python, adjacent separators produce empty segments. -/
def splitChar (sep : Char) : List Char → List (List Char)
  | [] => [[]]
  | c :: cs =>
    if c = sep then [] :: splitChar sep cs
    else
      match splitChar sep cs with
      | [] => [[c]]
      | h :: t => (c :: h) :: t

/-- Python str.split('..'): split on the two-character range separator,
    scanning left to right with non-overlapping matches. -/
def splitDotDot : List Char → List (List Char)
  | [] => [[]]
  | [c] => [[c]]
  | c :: d :: cs =>
    if c = '.' ∧ d = '.' then [] :: splitDotDot cs
    else
      match splitDotDot (d :: cs) with
      | [] => [[c]]
      | h :: t => (c :: h) :: t

/-- Decimal digit accumulator: any non-digit character fails,
    modelling the ValueError raised by int(). -/
def digitsVal : Nat → List Char → Option Nat
  | acc, [] => some acc
  | acc, c :: cs =>
    if c.isDigit then digitsVal (10 * acc + (c.toNat - 48)) cs else none

/-- Python int() applied to a character list: strips whitespace, accepts an
    optional sign followed by one or more decimal digits; anything else
    raises ValueError (modelled as none). -/
def pyIntChars (l : List Char) : Option Int :=
  match pyStrip l with
  | [] => none
  | '-' :: rest =>
    if rest.isEmpty then none
    else (digitsVal 0 rest).map (fun n => -(n : Int))
  | '+' :: rest =>
    if rest.isEmpty then none
    else (digitsVal 0 rest).map (fun n => (n : Int))
  | cs => (digitsVal 0 cs).map (fun n => (n : Int))

/-- Python int() on a string. -/
def pyInt (s : String) : Option Int :=
  pyIntChars s.data

/-- list(range(s, e + 1)): the inclusive integer range, empty when e < s. -/
def intRangeIncl (s e : Int) : List Int :=
  (List.range (e + 1 - s).toNat).map (fun k : Nat => s + (k : Int))

/-- Option-valued traversal of a list, in order; fails as soon as one
    element fails (first raised exception aborts the Python loop). -/
def optMapM (f : α → Option β) : List α → Option (List β)
  | [] => some []
  | a :: l => (f a).bind fun b => (optMapM f l).map fun bs => b :: bs

/-- parse_list on a character list: semicolon-separated integers; tokens
    that strip to the empty string are skipped; int() is applied to each
    remaining stripped token. -/
def parse_list_chars (l : List Char) : Option (List Int) :=
  if pyStrip l = [] then some []
  else optMapM pyIntChars (((splitChar ';' l).map pyStrip).filter (fun x => ¬x.isEmpty))

/-- parse_list: "Parse semicolon-separated list of integers." -/
def parse_list (text : String) : Option (List Int) :=
  parse_list_chars text.data

/-- parse_range: "Parse range notation like '0..19' or regular list."
    If the stripped text splits on '..' into exactly two parts, both are
    int()-converted and expanded to the inclusive range; otherwise the
    stripped text falls through to parse_list. -/
def parse_range (text : String) : Option (List Int) :=
  if pyStrip text.data = [] then some []
  else
    let t := pyStrip text.data
    let parts := splitDotDot t
    if parts.length = 2 then
      match pyIntChars parts[0]!, pyIntChars parts[1]! with
      | some s, some e => some (intRangeIncl s e)
      | _, _ => none
    else parse_list_chars t

/-- One token of parse_meetings: a stripped token containing a comma and
    splitting into exactly two parts yields a pair (some (some p));
    a token without a comma or with more than two parts is silently
    skipped (some none); a failing int() conversion raises (none). -/
def parseMeetingToken (tok : List Char) : Option (Option (Int × Int)) :=
  let m := pyStrip tok
  if m ≠ [] ∧ 2 ≤ (splitChar ',' m).length then
    let parts := splitChar ',' m
    if parts.length = 2 then
      match pyIntChars (pyStrip parts[0]!), pyIntChars (pyStrip parts[1]!) with
      | some a, some b => some (some (a, b))
      | _, _ => none
    else some none
  else some none

/-- parse_meetings: "Parse meetings like '0,1;1,2;' into list of tuples." -/
def parse_meetings (text : String) : Option (List (Int × Int)) :=
  if pyStrip text.data = [] then some []
  else ((optMapM parseMeetingToken (splitChar ';' text.data)).map
          (fun l => l.filterMap id))

/-- Python max() over an integer list (only ever applied to a nonempty
    list by the source; 0 is a junk value for []). -/
def pyMax : List Int → Int
  | [] => 0
  | x :: xs => xs.foldl max x

/-- Python min() over an integer list (only ever applied to a nonempty
    list by the source; 0 is a junk value for []). -/
def pyMin : List Int → Int
  | [] => 0
  | x :: xs => xs.foldl min x

/-- The Teams/Slots block of parse_basic_structure, applied to the list of
    parsed integer identifiers: one membership fact per identifier is
    emitted during collection; then, when the list is nonempty, the count
    fact, followed by either the compact range fact (when min = 0 and
    max = count - 1) or one more membership fact per identifier. -/
def idFacts (name numName : String) (ids : List Int) : List String :=
  (ids.map fun i => name ++ "(" ++ toString i ++ ").") ++
    (if ids.isEmpty then []
     else
       (numName ++ "(" ++ toString ids.length ++ ").") ::
         (if pyMin ids = 0 ∧ pyMax ids = (ids.length : Int) - 1 then
            [name ++ "(0.." ++ toString (pyMax ids) ++ ")."]
          else ids.map fun i => name ++ "(" ++ toString i ++ ")."))

/-- An unbroken 0-based run of identifiers, as a list of Ints. -/
def rangeInts (n : Nat) : List Int :=
  (List.range n).map (fun k : Nat => (k : Int))

/-- XML attribute lookup of one element: Element.get. -/
abbrev Attrs := String → Option String

/-- An element carrying no attributes at all. -/
def noAttrs : Attrs := fun _ => none

/-- An element whose sole attribute is type="v". -/
def typeOnly (v : String) : Attrs :=
  fun k => if k = "type" then some v else none

/-- elem.get(key, default). -/
def pyGet (a : Attrs) (key dflt : String) : String :=
  (a key).getD dflt

/-- Python str.lower() on one ASCII character. -/
def lowerChar (c : Char) : Char :=
  if 'A' ≤ c ∧ c ≤ 'Z' then Char.ofNat (c.toNat + 32) else c

/-- Python str.lower(). -/
def pyLower (s : String) : String :=
  ⟨s.data.map lowerChar⟩

/-- int(team.get('id')): a missing id attribute raises TypeError,
    a non-integer value raises ValueError (both modelled as none). -/
def getId (e : Attrs) : Option Int :=
  (e "id").bind pyInt

/-- Facts for one CA1 (capacity) element: the loop body of
    parse_ca1_constraints. -/
def ca1Block (cid : String) (a : Attrs) : Option (List String) :=
  let ctype := pyLower (pyGet a "type" "HARD")
  let maxv := pyGet a "max" "0"
  let minv := pyGet a "min" "0"
  let mode := pyGet a "mode" "H"
  let pen := pyGet a "penalty" "1"
  match parse_range (pyGet a "teams" ""), parse_list (pyGet a "slots" "") with
  | some teams, some slots =>
    some (["ca1_param(" ++ cid ++ ", type, " ++ ctype ++ ").",
           "ca1_param(" ++ cid ++ ", max, " ++ maxv ++ ").",
           "ca1_param(" ++ cid ++ ", min, " ++ minv ++ ").",
           "ca1_param(" ++ cid ++ ", mode, \"" ++ mode ++ "\").",
           "ca1_param(" ++ cid ++ ", penalty, " ++ pen ++ ")."] ++
      ((teams.map fun t => "ca1_teams(" ++ cid ++ ", " ++ toString t ++ ").") ++
       (slots.map fun s => "ca1_slots(" ++ cid ++ ", " ++ toString s ++ ").")))
  | _, _ => none

/-- Facts for one CA2 (capacity vs opponent set) element. -/
def ca2Block (cid : String) (a : Attrs) : Option (List String) :=
  let ctype := pyLower (pyGet a "type" "HARD")
  let maxv := pyGet a "max" "0"
  let minv := pyGet a "min" "0"
  let mode1 := pyGet a "mode1" "H"
  let mode2 := pyGet a "mode2" "GLOBAL"
  let pen := pyGet a "penalty" "1"
  match parse_range (pyGet a "teams1" ""), parse_range (pyGet a "teams2" ""),
        parse_list (pyGet a "slots" "") with
  | some teams1, some teams2, some slots =>
    some (["ca2_param(" ++ cid ++ ", type, " ++ ctype ++ ").",
           "ca2_param(" ++ cid ++ ", max, " ++ maxv ++ ").",
           "ca2_param(" ++ cid ++ ", min, " ++ minv ++ ").",
           "ca2_param(" ++ cid ++ ", mode1, \"" ++ mode1 ++ "\").",
           "ca2_param(" ++ cid ++ ", mode2, \"" ++ mode2 ++ "\").",
           "ca2_param(" ++ cid ++ ", penalty, " ++ pen ++ ")."] ++
      ((teams1.map fun t => "ca2_teams1(" ++ cid ++ ", " ++ toString t ++ ").") ++
       ((teams2.map fun t => "ca2_teams2(" ++ cid ++ ", " ++ toString t ++ ").") ++
        (slots.map fun s => "ca2_slots(" ++ cid ++ ", " ++ toString s ++ ")."))))
  | _, _, _ => none

/-- Facts for one CA3 (consecutive games) element. -/
def ca3Block (cid : String) (a : Attrs) : Option (List String) :=
  let ctype := pyLower (pyGet a "type" "HARD")
  let maxv := pyGet a "max" "0"
  let minv := pyGet a "min" "0"
  let mode1 := pyGet a "mode1" "H"
  let mode2 := pyGet a "mode2" "SLOTS"
  let intp := pyGet a "intp" "1"
  let pen := pyGet a "penalty" "1"
  match parse_range (pyGet a "teams1" ""), parse_range (pyGet a "teams2" "") with
  | some teams1, some teams2 =>
    some (["ca3_param(" ++ cid ++ ", type, " ++ ctype ++ ").",
           "ca3_param(" ++ cid ++ ", max, " ++ maxv ++ ").",
           "ca3_param(" ++ cid ++ ", min, " ++ minv ++ ").",
           "ca3_param(" ++ cid ++ ", mode1, \"" ++ mode1 ++ "\").",
           "ca3_param(" ++ cid ++ ", mode2, \"" ++ mode2 ++ "\").",
           "ca3_param(" ++ cid ++ ", intp, " ++ intp ++ ").",
           "ca3_param(" ++ cid ++ ", penalty, " ++ pen ++ ")."] ++
      ((teams1.map fun t => "ca3_teams1(" ++ cid ++ ", " ++ toString t ++ ").") ++
       (teams2.map fun t => "ca3_teams2(" ++ cid ++ ", " ++ toString t ++ ").")))
  | _, _ => none

/-- Facts for one CA4 (group capacity) element. -/
def ca4Block (cid : String) (a : Attrs) : Option (List String) :=
  let ctype := pyLower (pyGet a "type" "HARD")
  let maxv := pyGet a "max" "0"
  let minv := pyGet a "min" "0"
  let mode1 := pyGet a "mode1" "H"
  let mode2 := pyGet a "mode2" "GLOBAL"
  let pen := pyGet a "penalty" "1"
  match parse_range (pyGet a "teams1" ""), parse_range (pyGet a "teams2" ""),
        parse_list (pyGet a "slots" "") with
  | some teams1, some teams2, some slots =>
    some (["ca4_param(" ++ cid ++ ", type, " ++ ctype ++ ").",
           "ca4_param(" ++ cid ++ ", max, " ++ maxv ++ ").",
           "ca4_param(" ++ cid ++ ", min, " ++ minv ++ ").",
           "ca4_param(" ++ cid ++ ", mode1, \"" ++ mode1 ++ "\").",
           "ca4_param(" ++ cid ++ ", mode2, \"" ++ mode2 ++ "\").",
           "ca4_param(" ++ cid ++ ", penalty, " ++ pen ++ ")."] ++
      ((teams1.map fun t => "ca4_teams1(" ++ cid ++ ", " ++ toString t ++ ").") ++
       ((teams2.map fun t => "ca4_teams2(" ++ cid ++ ", " ++ toString t ++ ").") ++
        (slots.map fun s => "ca4_slots(" ++ cid ++ ", " ++ toString s ++ ")."))))
  | _, _, _ => none

/-- Facts for one GA1 (game assignment) element. -/
def ga1Block (cid : String) (a : Attrs) : Option (List String) :=
  let ctype := pyLower (pyGet a "type" "HARD")
  let maxv := pyGet a "max" "1"
  let minv := pyGet a "min" "0"
  let pen := pyGet a "penalty" "1"
  match parse_meetings (pyGet a "meetings" ""), parse_list (pyGet a "slots" "") with
  | some meetings, some slots =>
    some (["ga1_param(" ++ cid ++ ", type, " ++ ctype ++ ").",
           "ga1_param(" ++ cid ++ ", max, " ++ maxv ++ ").",
           "ga1_param(" ++ cid ++ ", min, " ++ minv ++ ").",
           "ga1_param(" ++ cid ++ ", penalty, " ++ pen ++ ")."] ++
      ((meetings.map fun m =>
          "ga1_meetings(" ++ cid ++ ", " ++ toString m.1 ++ ", " ++ toString m.2 ++ ").") ++
       (slots.map fun s => "ga1_slots(" ++ cid ++ ", " ++ toString s ++ ").")))
  | _, _ => none

/-- Facts for one BR1 (break per team) element. -/
def br1Block (cid : String) (a : Attrs) : Option (List String) :=
  let ctype := pyLower (pyGet a "type" "HARD")
  let intp := pyGet a "intp" "0"
  let mode1 := pyGet a "mode1" "LEQ"
  let mode2 := pyGet a "mode2" "HA"
  let pen := pyGet a "penalty" "1"
  match parse_range (pyGet a "teams" ""), parse_list (pyGet a "slots" "") with
  | some teams, some slots =>
    some (["br1_param(" ++ cid ++ ", type, " ++ ctype ++ ").",
           "br1_param(" ++ cid ++ ", intp, " ++ intp ++ ").",
           "br1_param(" ++ cid ++ ", mode1, \"" ++ mode1 ++ "\").",
           "br1_param(" ++ cid ++ ", mode2, \"" ++ mode2 ++ "\").",
           "br1_param(" ++ cid ++ ", penalty, " ++ pen ++ ")."] ++
      ((teams.map fun t => "br1_teams(" ++ cid ++ ", " ++ toString t ++ ").") ++
       (slots.map fun s => "br1_slots(" ++ cid ++ ", " ++ toString s ++ ").")))
  | _, _ => none

/-- Facts for one BR2 (global break) element. -/
def br2Block (cid : String) (a : Attrs) : Option (List String) :=
  let ctype := pyLower (pyGet a "type" "HARD")
  let intp := pyGet a "intp" "0"
  let homeMode := pyGet a "homeMode" "HA"
  let mode2 := pyGet a "mode2" "LEQ"
  let pen := pyGet a "penalty" "1"
  match parse_range (pyGet a "teams" ""), parse_range (pyGet a "slots" "") with
  | some teams, some slots =>
    some (["br2_param(" ++ cid ++ ", type, " ++ ctype ++ ").",
           "br2_param(" ++ cid ++ ", intp, " ++ intp ++ ").",
           "br2_param(" ++ cid ++ ", homeMode, \"" ++ homeMode ++ "\").",
           "br2_param(" ++ cid ++ ", mode2, \"" ++ mode2 ++ "\").",
           "br2_param(" ++ cid ++ ", penalty, " ++ pen ++ ")."] ++
      ((teams.map fun t => "br2_teams(" ++ cid ++ ", " ++ toString t ++ ").") ++
       (slots.map fun s => "br2_slots(" ++ cid ++ ", " ++ toString s ++ ").")))
  | _, _ => none

/-- Facts for one FA2 (fairness) element. -/
def fa2Block (cid : String) (a : Attrs) : Option (List String) :=
  let ctype := pyLower (pyGet a "type" "SOFT")
  let intp := pyGet a "intp" "1"
  let pen := pyGet a "penalty" "1"
  match parse_range (pyGet a "teams" ""), parse_range (pyGet a "slots" "") with
  | some teams, some slots =>
    some (["fa2_param(" ++ cid ++ ", type, " ++ ctype ++ ").",
           "fa2_param(" ++ cid ++ ", intp, " ++ intp ++ ").",
           "fa2_param(" ++ cid ++ ", penalty, " ++ pen ++ ")."] ++
      ((teams.map fun t => "fa2_teams(" ++ cid ++ ", " ++ toString t ++ ").") ++
       (slots.map fun s => "fa2_slots(" ++ cid ++ ", " ++ toString s ++ ").")))
  | _, _ => none

/-- Facts for one SE1 (separation) element. -/
def se1Block (cid : String) (a : Attrs) : Option (List String) :=
  let ctype := pyLower (pyGet a "type" "SOFT")
  let minv := pyGet a "min" "1"
  let pen := pyGet a "penalty" "1"
  match parse_range (pyGet a "teams" "") with
  | some teams =>
    some (["se1_param(" ++ cid ++ ", type, " ++ ctype ++ ").",
           "se1_param(" ++ cid ++ ", min, " ++ minv ++ ").",
           "se1_param(" ++ cid ++ ", penalty, " ++ pen ++ ")."] ++
      (teams.map fun t => "se1_teams(" ++ cid ++ ", " ++ toString t ++ ")."))
  | _ => none

/-- The nine constraint categories, in the fixed order of the source's
    constraint_counters dictionary and of the parse_xml_file call sequence. -/
inductive Cat
  | ca1 | ca2 | ca3 | ca4 | ga1 | br1 | br2 | fa2 | se1
deriving DecidableEq

/-- The dictionary key / fact name of a category. -/
def Cat.catName : Cat → String
  | .ca1 => "ca1"
  | .ca2 => "ca2"
  | .ca3 => "ca3"
  | .ca4 => "ca4"
  | .ga1 => "ga1"
  | .br1 => "br1"
  | .br2 => "br2"
  | .fa2 => "fa2"
  | .se1 => "se1"

/-- The per-element fact emitter of a category. -/
def catBlock : Cat → String → Attrs → Option (List String)
  | .ca1 => ca1Block
  | .ca2 => ca2Block
  | .ca3 => ca3Block
  | .ca4 => ca4Block
  | .ga1 => ga1Block
  | .br1 => br1Block
  | .br2 => br2Block
  | .fa2 => fa2Block
  | .se1 => se1Block

/-- The constraint counter dictionary self.constraint_counters. -/
abbrev CounterMap := Cat → Nat

/-- The identifier string f-string of get_constraint_id. -/
def mkId (c : Cat) (n : Nat) : String :=
  c.catName ++ "_" ++ toString n

/-- get_constraint_id: increments the category's counter and returns the
    identifier built from the incremented value. -/
def get_constraint_id (c : Cat) (k : CounterMap) : String × CounterMap :=
  (mkId c (k c + 1), fun c' => if c' = c then k c + 1 else k c')

/-- One category pass (the loop of parse_caX_constraints): for each
    element, in document order, allocate the next identifier and emit the
    element's facts; the counter map is threaded through. -/
def parseCat (c : Cat) (block : String → Attrs → Option (List String)) :
    List Attrs → CounterMap → Option (List String × CounterMap)
  | [], k => some ([], k)
  | e :: es, k =>
    match get_constraint_id c k with
    | (cid, k') =>
      (block cid e).bind fun fs =>
        (parseCat c block es k').map fun p => (fs ++ p.1, p.2)

/-- The counter-free description of one category pass starting after n
    previously allocated identifiers: the k-th element (0-based) of the
    list is emitted with identifier mkId c (n + k + 1), and the facts are
    concatenated in document order. -/
def blocksFrom (c : Cat) (block : String → Attrs → Option (List String)) :
    Nat → List Attrs → Option (List String)
  | _, [] => some []
  | n, e :: es =>
    (block (mkId c (n + 1)) e).bind fun fs =>
      (blocksFrom c block (n + 1) es).map fun rest => fs ++ rest

/-- A parsed tournament-definition document, as the transcoder reads it:
    the optional Teams and Slots sections (lists of team/slot elements in
    document order), the Format/gameMode text (outer Option: Format
    section present; middle: gameMode element present; inner: its text),
    and the nine constraint element lists, each in document order as
    returned by root.findall. -/
structure Doc where
  teams : Option (List Attrs)
  slots : Option (List Attrs)
  gameMode : Option (Option (Option String))
  ca1 : List Attrs
  ca2 : List Attrs
  ca3 : List Attrs
  ca4 : List Attrs
  ga1 : List Attrs
  br1 : List Attrs
  br2 : List Attrs
  fa2 : List Attrs
  se1 : List Attrs

/-- The element list of a given category. -/
def Doc.catOf (doc : Doc) : Cat → List Attrs
  | .ca1 => doc.ca1
  | .ca2 => doc.ca2
  | .ca3 => doc.ca3
  | .ca4 => doc.ca4
  | .ga1 => doc.ga1
  | .br1 => doc.br1
  | .br2 => doc.br2
  | .fa2 => doc.fa2
  | .se1 => doc.se1

/-- The Teams (or Slots) half of parse_basic_structure: when the section
    is present, every element's id attribute is int()-converted (a missing
    or malformed id raises) and the identifier facts are emitted. -/
def secFacts (o : Option (List Attrs)) (name numName : String) :
    Option (List String) :=
  match o with
  | none => some []
  | some es => (optMapM getId es).map (idFacts name numName)

/-- The Format block of parse_basic_structure: "phased." is emitted only
    when the Format section has a gameMode child whose text is 'P'. -/
def phasedFacts (gm : Option (Option (Option String))) : List String :=
  match gm with
  | some (some (some t)) => if t = "P" then ["phased."] else []
  | _ => []

/-- parse_basic_structure: teams facts, then slots facts, then the phased
    flag, in that order. -/
def parse_basic_structure (doc : Doc) : Option (List String) :=
  match secFacts doc.teams "team" "num_teams",
        secFacts doc.slots "slot" "num_slots" with
  | some tf, some sf => some (tf ++ sf ++ phasedFacts doc.gameMode)
  | _, _ => none

/-- parse_ca1_constraints. -/
def parse_ca1_constraints (es : List Attrs) (k : CounterMap) :
    Option (List String × CounterMap) := parseCat .ca1 ca1Block es k

/-- parse_ca2_constraints. -/
def parse_ca2_constraints (es : List Attrs) (k : CounterMap) :
    Option (List String × CounterMap) := parseCat .ca2 ca2Block es k

/-- parse_ca3_constraints. -/
def parse_ca3_constraints (es : List Attrs) (k : CounterMap) :
    Option (List String × CounterMap) := parseCat .ca3 ca3Block es k

/-- parse_ca4_constraints. -/
def parse_ca4_constraints (es : List Attrs) (k : CounterMap) :
    Option (List String × CounterMap) := parseCat .ca4 ca4Block es k

/-- parse_ga1_constraints. -/
def parse_ga1_constraints (es : List Attrs) (k : CounterMap) :
    Option (List String × CounterMap) := parseCat .ga1 ga1Block es k

/-- parse_br1_constraints. -/
def parse_br1_constraints (es : List Attrs) (k : CounterMap) :
    Option (List String × CounterMap) := parseCat .br1 br1Block es k

/-- parse_br2_constraints. -/
def parse_br2_constraints (es : List Attrs) (k : CounterMap) :
    Option (List String × CounterMap) := parseCat .br2 br2Block es k

/-- parse_fa2_constraints. -/
def parse_fa2_constraints (es : List Attrs) (k : CounterMap) :
    Option (List String × CounterMap) := parseCat .fa2 fa2Block es k

/-- parse_se1_constraints. -/
def parse_se1_constraints (es : List Attrs) (k : CounterMap) :
    Option (List String × CounterMap) := parseCat .se1 se1Block es k

/-- The success path of parse_xml_file on an already-parsed document:
    header comment, blank, basic-structure section, blank, constraint
    section, with the nine category passes run in the fixed source order
    threading the counter map initialised to all zeros. Any uncaught
    exception inside (ValueError/TypeError from int()) yields none. -/
def parse_xml_file_ok (filename : String) (doc : Doc) : Option (List String) :=
  (parse_basic_structure doc).bind fun basic =>
  (parse_ca1_constraints doc.ca1 (fun _ => 0)).bind fun p1 =>
  (parse_ca2_constraints doc.ca2 p1.2).bind fun p2 =>
  (parse_ca3_constraints doc.ca3 p2.2).bind fun p3 =>
  (parse_ca4_constraints doc.ca4 p3.2).bind fun p4 =>
  (parse_ga1_constraints doc.ga1 p4.2).bind fun p5 =>
  (parse_br1_constraints doc.br1 p5.2).bind fun p6 =>
  (parse_br2_constraints doc.br2 p6.2).bind fun p7 =>
  (parse_fa2_constraints doc.fa2 p7.2).bind fun p8 =>
  (parse_se1_constraints doc.se1 p8.2).map fun p9 =>
  ("% ASP facts generated from " ++ filename) :: "" :: "% Basic structure" ::
    (basic ++ ("" :: "% Constraints" ::
      (p1.1 ++ p2.1 ++ p3.1 ++ p4.1 ++ p5.1 ++ p6.1 ++ p7.1 ++ p8.1 ++ p9.1)))

/-- What the process reads from disk: the file may be missing
    (FileNotFoundError), syntactically malformed XML (ET.ParseError), or
    a well-formed parsed document. -/
inductive XmlSource
  | missing
  | malformed (msg : String)
  | ok (doc : Doc)

/-- Observable outcome of one run of main: the process exit code, what
    was printed to stderr, and the output file content (none when no
    output file is produced). -/
structure RunResult where
  exitCode : Nat
  errMsg : Option String
  output : Option (List String)

/-- main composed with parse_xml_file's error handling: ET.ParseError and
    FileNotFoundError are caught, reported to stderr and turned into
    sys.exit(1) before write_facts runs; an uncaught exception during
    transcoding likewise aborts the interpreter (exit code 1, traceback
    on stderr) with no output file; otherwise the facts are written. -/
def runMain (input : String) (src : XmlSource) : RunResult :=
  match src with
  | .malformed msg => ⟨1, some ("Error parsing XML file: " ++ msg), none⟩
  | .missing => ⟨1, some ("File not found: " ++ input), none⟩
  | .ok doc =>
    match parse_xml_file_ok input doc with
    | some facts => ⟨0, none, some facts⟩
    | none => ⟨1, some "Traceback (most recent call last)", none⟩

/-- A concrete document with a single capacity constraint element
    carrying no attributes, used to instantiate theorems. -/
def sampleDocCA1 : Doc :=
  ⟨none, none, none, [noAttrs], [], [], [], [], [], [], [], []⟩

/-- A concrete document with two teams, a phased format and one fairness
    constraint element, used to instantiate the ordering theorem. -/
def sampleDoc9 : Doc :=
  ⟨some [fun k => if k = "id" then some "0" else none,
         fun k => if k = "id" then some "1" else none],
   none, some (some (some "P")),
   [], [], [], [], [], [], [], [noAttrs], []⟩

/-- A concrete document with empty Teams and Slots sections and one
    attribute-less capacity constraint element. -/
def sampleNoAttrsDoc : Doc :=
  ⟨some [], some [], none, [noAttrs], [], [], [], [], [], [], [], []⟩

/-! ## Theorems -/

/-- C4: the three list grammars parse their canonical examples as stated:
    "2;5;7" to [2,5,7], "3..6" to [3,4,5,6], "1,2;3,4" to [(1,2),(3,4)];
    and each grammar returns the empty list on empty text ("" is also
    exactly what every call site passes for an absent attribute, via
    elem.get(key, '')). -/
theorem C4_grammar_round_trip :
    parse_list "2;5;7" = some [2, 5, 7] ∧
    parse_range "3..6" = some [3, 4, 5, 6] ∧
    parse_meetings "1,2;3,4" = some [(1, 2), (3, 4)] ∧
    parse_list "" = some [] ∧
    parse_range "" = some [] ∧
    parse_meetings "" = some [] := by
  refine ⟨?_, ?_, ?_, ?_, ?_, ?_⟩ <;> decide

/-- C5 counterexample: the claim says malformed list syntax is never
    fatal, but a range with three parts falls through to plain-list
    parsing of the raw text, where int("1..2..3") raises an uncaught
    ValueError (modelled as none): the run aborts. -/
theorem C5_counterexample : parse_range "1..2..3" = none := by decide

/-- C5 amended: a pair token that does not split into exactly two
    comma-separated parts is silently dropped (and the remaining
    well-formed tokens are still parsed, e.g. "1,2,3;5,6" yields only
    (5,6)); but a range with other than exactly two parts is not dropped:
    the raw text falls through to the plain-list grammar, which is fatal
    whenever that text is not itself a well-formed plain list. -/
theorem C5_malformed_list_handling (tok : List Char) (t : String)
    (hp : (splitChar ',' (pyStrip tok)).length ≠ 2)
    (h1 : pyStrip t.data ≠ [])
    (h2 : (splitDotDot (pyStrip t.data)).length ≠ 2) :
    parseMeetingToken tok = some none ∧
    parse_range t = parse_list_chars (pyStrip t.data) ∧
    parse_meetings "1,2,3;5,6" = some [(5, 6)] := by
  refine ⟨?_, ?_, by decide⟩
  · by_cases h : pyStrip tok ≠ [] ∧ 2 ≤ (splitChar ',' (pyStrip tok)).length
    · simp [parseMeetingToken, h, hp]
    · simp [parseMeetingToken, h]
  · simp [parse_range, h1, h2]

/-- C5 witness: the amended claim instantiated at the pair token "1,2,3"
    and the range text "1..2..3". -/
theorem C5_malformed_list_handling_witness :
    ((splitChar ',' (pyStrip ("1,2,3".data))).length ≠ 2 ∧
     pyStrip ("1..2..3".data) ≠ [] ∧
     (splitDotDot (pyStrip ("1..2..3".data))).length ≠ 2) ∧
    (parseMeetingToken ("1,2,3".data) = some none ∧
     parse_range "1..2..3" = parse_list_chars (pyStrip ("1..2..3".data)) ∧
     parse_meetings "1,2,3;5,6" = some [(5, 6)]) :=
  ⟨⟨by decide, by decide, by decide⟩,
   C5_malformed_list_handling ("1,2,3".data) "1..2..3" (by decide) (by decide)
     (by decide)⟩

/-- C10: the contiguity check compares only min, max and count: for the
    duplicate-containing list [0,0,1,3] (min 0, max 3 = count - 1) the
    extractor emits the compact range statement team(0..3). even though
    the list is not the unbroken run [0,1,2,3]. -/
theorem C10_min_max_count_contiguity :
    "team(0..3)." ∈ idFacts "team" "num_teams" [0, 0, 1, 3] ∧
    idFacts "team" "num_teams" [0, 0, 1, 3] =
      ["team(0).", "team(0).", "team(1).", "team(3).", "num_teams(4).",
       "team(0..3)."] ∧
    ([0, 0, 1, 3] : List Int) ≠ [0, 1, 2, 3] := by
  refine ⟨?_, ?_, ?_⟩ <;> decide

/-- C1 counterexample: for the contiguous 0-based run [0,1] the claim
    says no per-element membership statements are emitted in addition to
    the range and count statements, but the collection loop emits
    team(0). and team(1). before the count and range statements. -/
theorem C1_counterexample :
    idFacts "team" "num_teams" [0, 1] =
      ["team(0).", "team(1).", "num_teams(2).", "team(0..1)."] ∧
    "team(0)." ∈ idFacts "team" "num_teams" [0, 1] := by
  refine ⟨?_, ?_⟩ <;> decide

/-- C2 counterexample: for the list [1,2] (which does not start at 0) the
    claim says exactly one membership statement per element is emitted,
    but each element's membership statement appears twice (once from the
    collection loop and once from the fallback enumeration). -/
theorem C2_counterexample :
    idFacts "team" "num_teams" [1, 2] =
      ["team(1).", "team(2).", "num_teams(2).", "team(1).", "team(2)."] ∧
    (idFacts "team" "num_teams" [1, 2]).count "team(1)." = 2 := by
  refine ⟨?_, ?_⟩ <;> decide

/-- C7: a missing input file or a malformed XML document is reported to
    stderr, the process exits non-zero, and no output file is produced. -/
theorem C7_fatal_input_errors (input : String) (src : XmlSource)
    (h : src = XmlSource.missing ∨ ∃ m, src = XmlSource.malformed m) :
    (runMain input src).exitCode ≠ 0 ∧
    (runMain input src).errMsg ≠ none ∧
    (runMain input src).output = none := by
  rcases h with rfl | ⟨m, rfl⟩ <;> simp [runMain]

/-- C7 witness: the missing-file case at a concrete path. -/
theorem C7_fatal_input_errors_witness :
    (runMain "instance.xml" XmlSource.missing).exitCode ≠ 0 ∧
    (runMain "instance.xml" XmlSource.missing).errMsg ≠ none ∧
    (runMain "instance.xml" XmlSource.missing).output = none :=
  C7_fatal_input_errors "instance.xml" XmlSource.missing (Or.inl rfl)

lemma rangeInts_succ (m : Nat) : rangeInts (m + 1) = rangeInts m ++ [(m : Int)] := by
  simp [rangeInts, List.range_succ]

lemma rangeInts_cons (m : Nat) :
    rangeInts (m + 1) =
      (0 : Int) :: ((List.range m).map Nat.succ).map (fun k : Nat => (k : Int)) := by
  simp [rangeInts, List.range_succ_eq_map, List.map_map]

lemma rangeInts_length (n : Nat) : (rangeInts n).length = n := by
  rw [rangeInts, List.length_map, List.length_range]

lemma rangeInts_foldl_max (n : Nat) (a : Int) :
    (rangeInts n).foldl max a = if n = 0 then a else max a ((n : Int) - 1) := by
  induction n generalizing a with
  | zero => simp [rangeInts]
  | succ m ih =>
    rw [rangeInts_succ, List.foldl_append, ih]
    rcases Nat.eq_zero_or_pos m with hm | hm
    · subst hm
      norm_num
    · rw [if_neg (by omega), if_neg (by omega)]
      simp only [List.foldl_cons, List.foldl_nil]
      rw [max_assoc, max_eq_right (by omega : ((m : Int) - 1) ≤ (m : Int))]
      congr 1
      push_cast
      ring

lemma rangeInts_foldl_min (n : Nat) (a : Int) :
    (rangeInts n).foldl min a = if n = 0 then a else min a 0 := by
  induction n generalizing a with
  | zero => simp [rangeInts]
  | succ m ih =>
    rw [rangeInts_succ, List.foldl_append, ih]
    rcases Nat.eq_zero_or_pos m with hm | hm
    · subst hm
      norm_num
    · rw [if_neg (by omega), if_neg (by omega)]
      simp only [List.foldl_cons, List.foldl_nil]
      rw [min_assoc, min_eq_left (by omega : (0 : Int) ≤ (m : Int))]

lemma pyMax_rangeInts (m : Nat) : pyMax (rangeInts (m + 1)) = (m : Int) := by
  have h := rangeInts_foldl_max (m + 1) 0
  rw [if_neg (by omega)] at h
  have hc : ((m + 1 : Nat) : Int) - 1 = (m : Int) := by push_cast; ring
  rw [hc, max_eq_right (by omega : (0 : Int) ≤ (m : Int))] at h
  rw [rangeInts_cons] at h ⊢
  simp only [List.foldl_cons, max_self] at h
  simpa only [pyMax] using h

lemma pyMin_rangeInts (m : Nat) : pyMin (rangeInts (m + 1)) = 0 := by
  have h := rangeInts_foldl_min (m + 1) 0
  rw [if_neg (by omega), min_self] at h
  rw [rangeInts_cons] at h ⊢
  simp only [List.foldl_cons, min_self] at h
  simpa only [pyMin] using h

/-- C1 amended: for every non-empty unbroken 0-based run the extractor
    emits exactly one count statement and exactly one compact range
    statement, but additionally one per-element membership statement per
    identifier (emitted by the collection loop, before the count). -/
theorem C1_contiguous_run_emission (name numName : String) (n : Nat)
    (h : 0 < n) :
    idFacts name numName (rangeInts n) =
      ((rangeInts n).map fun i => name ++ "(" ++ toString i ++ ").") ++
        ((numName ++ "(" ++ toString n ++ ").") ::
          [name ++ "(0.." ++ toString ((n : Int) - 1) ++ ")."]) := by
  obtain ⟨m, rfl⟩ : ∃ m, n = m + 1 := ⟨n - 1, by omega⟩
  unfold idFacts
  rw [if_neg (by rw [rangeInts_cons]; simp)]
  rw [if_pos ⟨pyMin_rangeInts m, by
    rw [pyMax_rangeInts, rangeInts_length]; push_cast; ring⟩]
  rw [rangeInts_length, pyMax_rangeInts]
  have hc : ((m + 1 : Nat) : Int) - 1 = (m : Int) := by push_cast; ring
  rw [hc]

/-- C1 witness: the amended claim at the run [0, 1]. -/
theorem C1_contiguous_run_emission_witness :
    0 < 2 ∧
    idFacts "team" "num_teams" (rangeInts 2) =
      ((rangeInts 2).map fun i => "team" ++ "(" ++ toString i ++ ").") ++
        (("num_teams" ++ "(" ++ toString 2 ++ ").") ::
          ["team" ++ "(0.." ++ toString ((2 : Int) - 1) ++ ")."]) :=
  ⟨by decide, C1_contiguous_run_emission "team" "num_teams" 2 (by decide)⟩

/-- C2 amended: for every non-empty identifier list failing the code's
    min/max/count contiguity test (minimum nonzero or maximum different
    from count - 1), the extractor emits exactly one count statement and
    two membership statements per element: the list is enumerated once by
    the collection loop and once more by the fallback branch. -/
theorem C2_fallback_emission (name numName : String) (ids : List Int)
    (h1 : ids ≠ [])
    (h2 : ¬(pyMin ids = 0 ∧ pyMax ids = (ids.length : Int) - 1)) :
    idFacts name numName ids =
      (ids.map fun i => name ++ "(" ++ toString i ++ ").") ++
        ((numName ++ "(" ++ toString ids.length ++ ").") ::
          (ids.map fun i => name ++ "(" ++ toString i ++ ").")) := by
  obtain ⟨x, xs, rfl⟩ : ∃ x xs, ids = x :: xs := by
    rcases ids with _ | ⟨x, xs⟩
    · exact absurd rfl h1
    · exact ⟨x, xs, rfl⟩
  unfold idFacts
  rw [if_neg (by simp), if_neg h2]

/-- C2 witness: the amended claim at the list [1, 2]. -/
theorem C2_fallback_emission_witness :
    (([1, 2] : List Int) ≠ [] ∧
     ¬(pyMin [1, 2] = 0 ∧
        pyMax [1, 2] = ((([1, 2] : List Int).length : Nat) : Int) - 1)) ∧
    idFacts "team" "num_teams" [1, 2] =
      (([1, 2] : List Int).map fun i => "team" ++ "(" ++ toString i ++ ").") ++
        (("num_teams" ++ "(" ++ toString ([1, 2] : List Int).length ++ ").") ::
          (([1, 2] : List Int).map fun i => "team" ++ "(" ++ toString i ++ ").")) :=
  ⟨⟨by decide, by decide⟩,
   C2_fallback_emission "team" "num_teams" [1, 2] (by decide) (by decide)⟩

/-- C6: every attribute absent from a constraint element is emitted with
    its documented per-category default verbatim (in particular a GA1
    element lacking max yields parameter value 1 and an FA2 element
    lacking type yields soft), and the type attribute value is always
    lower-cased on emission regardless of source casing: shown for all
    nine categories, once with every attribute absent and once with an
    arbitrary type value v as the only attribute present. -/
theorem C6_defaults_and_type_lowercase (cid v : String) :
    (ca1Block cid noAttrs = some
      ["ca1_param(" ++ cid ++ ", type, " ++ "hard" ++ ").",
       "ca1_param(" ++ cid ++ ", max, " ++ "0" ++ ").",
       "ca1_param(" ++ cid ++ ", min, " ++ "0" ++ ").",
       "ca1_param(" ++ cid ++ ", mode, \"" ++ "H" ++ "\").",
       "ca1_param(" ++ cid ++ ", penalty, " ++ "1" ++ ")."] ∧
     ca2Block cid noAttrs = some
      ["ca2_param(" ++ cid ++ ", type, " ++ "hard" ++ ").",
       "ca2_param(" ++ cid ++ ", max, " ++ "0" ++ ").",
       "ca2_param(" ++ cid ++ ", min, " ++ "0" ++ ").",
       "ca2_param(" ++ cid ++ ", mode1, \"" ++ "H" ++ "\").",
       "ca2_param(" ++ cid ++ ", mode2, \"" ++ "GLOBAL" ++ "\").",
       "ca2_param(" ++ cid ++ ", penalty, " ++ "1" ++ ")."] ∧
     ca3Block cid noAttrs = some
      ["ca3_param(" ++ cid ++ ", type, " ++ "hard" ++ ").",
       "ca3_param(" ++ cid ++ ", max, " ++ "0" ++ ").",
       "ca3_param(" ++ cid ++ ", min, " ++ "0" ++ ").",
       "ca3_param(" ++ cid ++ ", mode1, \"" ++ "H" ++ "\").",
       "ca3_param(" ++ cid ++ ", mode2, \"" ++ "SLOTS" ++ "\").",
       "ca3_param(" ++ cid ++ ", intp, " ++ "1" ++ ").",
       "ca3_param(" ++ cid ++ ", penalty, " ++ "1" ++ ")."] ∧
     ca4Block cid noAttrs = some
      ["ca4_param(" ++ cid ++ ", type, " ++ "hard" ++ ").",
       "ca4_param(" ++ cid ++ ", max, " ++ "0" ++ ").",
       "ca4_param(" ++ cid ++ ", min, " ++ "0" ++ ").",
       "ca4_param(" ++ cid ++ ", mode1, \"" ++ "H" ++ "\").",
       "ca4_param(" ++ cid ++ ", mode2, \"" ++ "GLOBAL" ++ "\").",
       "ca4_param(" ++ cid ++ ", penalty, " ++ "1" ++ ")."] ∧
     ga1Block cid noAttrs = some
      ["ga1_param(" ++ cid ++ ", type, " ++ "hard" ++ ").",
       "ga1_param(" ++ cid ++ ", max, " ++ "1" ++ ").",
       "ga1_param(" ++ cid ++ ", min, " ++ "0" ++ ").",
       "ga1_param(" ++ cid ++ ", penalty, " ++ "1" ++ ")."] ∧
     br1Block cid noAttrs = some
      ["br1_param(" ++ cid ++ ", type, " ++ "hard" ++ ").",
       "br1_param(" ++ cid ++ ", intp, " ++ "0" ++ ").",
       "br1_param(" ++ cid ++ ", mode1, \"" ++ "LEQ" ++ "\").",
       "br1_param(" ++ cid ++ ", mode2, \"" ++ "HA" ++ "\").",
       "br1_param(" ++ cid ++ ", penalty, " ++ "1" ++ ")."] ∧
     br2Block cid noAttrs = some
      ["br2_param(" ++ cid ++ ", type, " ++ "hard" ++ ").",
       "br2_param(" ++ cid ++ ", intp, " ++ "0" ++ ").",
       "br2_param(" ++ cid ++ ", homeMode, \"" ++ "HA" ++ "\").",
       "br2_param(" ++ cid ++ ", mode2, \"" ++ "LEQ" ++ "\").",
       "br2_param(" ++ cid ++ ", penalty, " ++ "1" ++ ")."] ∧
     fa2Block cid noAttrs = some
      ["fa2_param(" ++ cid ++ ", type, " ++ "soft" ++ ").",
       "fa2_param(" ++ cid ++ ", intp, " ++ "1" ++ ").",
       "fa2_param(" ++ cid ++ ", penalty, " ++ "1" ++ ")."] ∧
     se1Block cid noAttrs = some
      ["se1_param(" ++ cid ++ ", type, " ++ "soft" ++ ").",
       "se1_param(" ++ cid ++ ", min, " ++ "1" ++ ").",
       "se1_param(" ++ cid ++ ", penalty, " ++ "1" ++ ")."]) ∧
    (ca1Block cid (typeOnly v) = some
      ["ca1_param(" ++ cid ++ ", type, " ++ pyLower v ++ ").",
       "ca1_param(" ++ cid ++ ", max, " ++ "0" ++ ").",
       "ca1_param(" ++ cid ++ ", min, " ++ "0" ++ ").",
       "ca1_param(" ++ cid ++ ", mode, \"" ++ "H" ++ "\").",
       "ca1_param(" ++ cid ++ ", penalty, " ++ "1" ++ ")."] ∧
     ca2Block cid (typeOnly v) = some
      ["ca2_param(" ++ cid ++ ", type, " ++ pyLower v ++ ").",
       "ca2_param(" ++ cid ++ ", max, " ++ "0" ++ ").",
       "ca2_param(" ++ cid ++ ", min, " ++ "0" ++ ").",
       "ca2_param(" ++ cid ++ ", mode1, \"" ++ "H" ++ "\").",
       "ca2_param(" ++ cid ++ ", mode2, \"" ++ "GLOBAL" ++ "\").",
       "ca2_param(" ++ cid ++ ", penalty, " ++ "1" ++ ")."] ∧
     ca3Block cid (typeOnly v) = some
      ["ca3_param(" ++ cid ++ ", type, " ++ pyLower v ++ ").",
       "ca3_param(" ++ cid ++ ", max, " ++ "0" ++ ").",
       "ca3_param(" ++ cid ++ ", min, " ++ "0" ++ ").",
       "ca3_param(" ++ cid ++ ", mode1, \"" ++ "H" ++ "\").",
       "ca3_param(" ++ cid ++ ", mode2, \"" ++ "SLOTS" ++ "\").",
       "ca3_param(" ++ cid ++ ", intp, " ++ "1" ++ ").",
       "ca3_param(" ++ cid ++ ", penalty, " ++ "1" ++ ")."] ∧
     ca4Block cid (typeOnly v) = some
      ["ca4_param(" ++ cid ++ ", type, " ++ pyLower v ++ ").",
       "ca4_param(" ++ cid ++ ", max, " ++ "0" ++ ").",
       "ca4_param(" ++ cid ++ ", min, " ++ "0" ++ ").",
       "ca4_param(" ++ cid ++ ", mode1, \"" ++ "H" ++ "\").",
       "ca4_param(" ++ cid ++ ", mode2, \"" ++ "GLOBAL" ++ "\").",
       "ca4_param(" ++ cid ++ ", penalty, " ++ "1" ++ ")."] ∧
     ga1Block cid (typeOnly v) = some
      ["ga1_param(" ++ cid ++ ", type, " ++ pyLower v ++ ").",
       "ga1_param(" ++ cid ++ ", max, " ++ "1" ++ ").",
       "ga1_param(" ++ cid ++ ", min, " ++ "0" ++ ").",
       "ga1_param(" ++ cid ++ ", penalty, " ++ "1" ++ ")."] ∧
     br1Block cid (typeOnly v) = some
      ["br1_param(" ++ cid ++ ", type, " ++ pyLower v ++ ").",
       "br1_param(" ++ cid ++ ", intp, " ++ "0" ++ ").",
       "br1_param(" ++ cid ++ ", mode1, \"" ++ "LEQ" ++ "\").",
       "br1_param(" ++ cid ++ ", mode2, \"" ++ "HA" ++ "\").",
       "br1_param(" ++ cid ++ ", penalty, " ++ "1" ++ ")."] ∧
     br2Block cid (typeOnly v) = some
      ["br2_param(" ++ cid ++ ", type, " ++ pyLower v ++ ").",
       "br2_param(" ++ cid ++ ", intp, " ++ "0" ++ ").",
       "br2_param(" ++ cid ++ ", homeMode, \"" ++ "HA" ++ "\").",
       "br2_param(" ++ cid ++ ", mode2, \"" ++ "LEQ" ++ "\").",
       "br2_param(" ++ cid ++ ", penalty, " ++ "1" ++ ")."] ∧
     fa2Block cid (typeOnly v) = some
      ["fa2_param(" ++ cid ++ ", type, " ++ pyLower v ++ ").",
       "fa2_param(" ++ cid ++ ", intp, " ++ "1" ++ ").",
       "fa2_param(" ++ cid ++ ", penalty, " ++ "1" ++ ")."] ∧
     se1Block cid (typeOnly v) = some
      ["se1_param(" ++ cid ++ ", type, " ++ pyLower v ++ ").",
       "se1_param(" ++ cid ++ ", min, " ++ "1" ++ ").",
       "se1_param(" ++ cid ++ ", penalty, " ++ "1" ++ ")."]) :=
  ⟨⟨rfl, rfl, rfl, rfl, rfl, rfl, rfl, rfl, rfl⟩,
   ⟨rfl, rfl, rfl, rfl, rfl, rfl, rfl, rfl, rfl⟩⟩

/-- C8 counterexample: attribute absence can be fatal: a well-formed
    document whose Teams section contains one team element with no id
    attribute makes int(team.get('id')) raise TypeError, so transcoding
    does not run to completion (modelled as none). -/
theorem C8_counterexample :
    parse_xml_file_ok "instance.xml"
      ⟨some [noAttrs], none, none, [], [], [], [], [], [], [], [], []⟩ =
      none := rfl

/-- Refinement of one counter-threaded category pass to its pure
    description: starting from counter map k, the pass emits the facts of
    blocksFrom at starting index k c and bumps only the counter of c by
    the number of elements. -/
lemma parseCat_eq (c : Cat) (block : String → Attrs → Option (List String))
    (es : List Attrs) : ∀ k : CounterMap,
    parseCat c block es k =
      (blocksFrom c block (k c) es).map
        (fun fs => (fs, fun c' => if c' = c then k c + es.length else k c')) := by
  induction es with
  | nil =>
    intro k
    simp only [parseCat, blocksFrom, Option.map_some', List.length_nil,
      Nat.add_zero]
    congr 1
    congr 1
    funext c'
    by_cases h : c' = c
    · subst h
      simp
    · simp [h]
  | cons e es ih =>
    intro k
    simp only [parseCat, get_constraint_id, blocksFrom]
    rw [ih]
    have hKc : (if c = c then k c + 1 else k c) = k c + 1 := by simp
    rw [hKc]
    cases hb : block (mkId c (k c + 1)) e with
    | none => simp
    | some fs =>
      cases hbf : blocksFrom c block (k c + 1) es with
      | none => simp
      | some rest =>
        simp only [Option.map_some', Option.some_bind]
        congr 1
        congr 1
        funext c'
        by_cases h : c' = c
        · subst h
          simp only [List.length_cons]
          split_ifs with hcc
          · omega
          · exact absurd trivial hcc
        · simp only [if_neg h]

/-- A successful counter-threaded pass, unpacked. -/
lemma parseCat_eq_some (c : Cat) (block : String → Attrs → Option (List String))
    (es : List Attrs) (k : CounterMap) (fs : List String) (k2 : CounterMap)
    (h : parseCat c block es k = some (fs, k2)) :
    blocksFrom c block (k c) es = some fs ∧
    k2 = fun c' => if c' = c then k c + es.length else k c' := by
  rw [parseCat_eq] at h
  cases hbf : blocksFrom c block (k c) es with
  | none => rw [hbf] at h; simp at h
  | some fs' =>
    rw [hbf] at h
    simp only [Option.map_some', Option.some.injEq, Prod.mk.injEq] at h
    obtain ⟨h1, h2⟩ := h
    subst h1
    exact ⟨rfl, h2.symm⟩

/-- In a pure category pass starting at index n, the k-th element of the
    list (0-based) is emitted with identifier mkId c (n + k + 1). -/
lemma blocksFrom_index (c : Cat) (block : String → Attrs → Option (List String))
    (es : List Attrs) : ∀ (n : Nat) (fs : List String),
    blocksFrom c block n es = some fs →
    ∀ (k : Nat) (hk : k < es.length),
      ∃ bfs, block (mkId c (n + k + 1)) (es.get ⟨k, hk⟩) = some bfs := by
  induction es with
  | nil =>
    intro n fs _ k hk
    exact absurd hk (by simp)
  | cons e es ih =>
    intro n fs h k hk
    simp only [blocksFrom] at h
    rw [Option.bind_eq_some] at h
    obtain ⟨bfs0, hb0, h⟩ := h
    cases k with
    | zero => exact ⟨bfs0, hb0⟩
    | succ j =>
      rw [Option.map_eq_some'] at h
      obtain ⟨rest, hrest, _⟩ := h
      obtain ⟨bfs, hbfs⟩ := ih (n + 1) rest hrest j
        (Nat.lt_of_succ_lt_succ (by simpa using hk))
      refine ⟨bfs, ?_⟩
      have harith : n + 1 + j + 1 = n + (j + 1) + 1 := by omega
      rw [harith] at hbfs
      exact hbfs

/-- Decomposition of a successful transcode: the fact sequence is the
    header comment, a blank, the basic-structure section (teams facts,
    slots facts, phased flag, behind its section comment), a blank, and
    the constraint section holding the nine categories' fact lists in the
    fixed order, each produced by the pure in-document-order pass
    starting at identifier index 0. -/
lemma transcode_decomp (f : String) (doc : Doc) (fs : List String)
    (h : parse_xml_file_ok f doc = some fs) :
    ∃ tf sf f1 f2 f3 f4 f5 f6 f7 f8 f9,
      secFacts doc.teams "team" "num_teams" = some tf ∧
      secFacts doc.slots "slot" "num_slots" = some sf ∧
      blocksFrom .ca1 ca1Block 0 doc.ca1 = some f1 ∧
      blocksFrom .ca2 ca2Block 0 doc.ca2 = some f2 ∧
      blocksFrom .ca3 ca3Block 0 doc.ca3 = some f3 ∧
      blocksFrom .ca4 ca4Block 0 doc.ca4 = some f4 ∧
      blocksFrom .ga1 ga1Block 0 doc.ga1 = some f5 ∧
      blocksFrom .br1 br1Block 0 doc.br1 = some f6 ∧
      blocksFrom .br2 br2Block 0 doc.br2 = some f7 ∧
      blocksFrom .fa2 fa2Block 0 doc.fa2 = some f8 ∧
      blocksFrom .se1 se1Block 0 doc.se1 = some f9 ∧
      fs = ("% ASP facts generated from " ++ f) :: "" :: "% Basic structure" ::
        ((tf ++ sf ++ phasedFacts doc.gameMode) ++ ("" :: "% Constraints" ::
          (f1 ++ f2 ++ f3 ++ f4 ++ f5 ++ f6 ++ f7 ++ f8 ++ f9))) := by
  unfold parse_xml_file_ok parse_ca1_constraints parse_ca2_constraints
    parse_ca3_constraints parse_ca4_constraints parse_ga1_constraints
    parse_br1_constraints parse_br2_constraints parse_fa2_constraints
    parse_se1_constraints at h
  rw [Option.bind_eq_some] at h
  obtain ⟨basic, hbasic, h⟩ := h
  rw [Option.bind_eq_some] at h
  obtain ⟨⟨f1, k1⟩, hp1, h⟩ := h
  obtain ⟨hb1, hk1⟩ := parseCat_eq_some _ _ _ _ _ _ hp1
  subst hk1
  rw [Option.bind_eq_some] at h
  obtain ⟨⟨f2, k2⟩, hp2, h⟩ := h
  obtain ⟨hb2, hk2⟩ := parseCat_eq_some _ _ _ _ _ _ hp2
  subst hk2
  rw [Option.bind_eq_some] at h
  obtain ⟨⟨f3, k3⟩, hp3, h⟩ := h
  obtain ⟨hb3, hk3⟩ := parseCat_eq_some _ _ _ _ _ _ hp3
  subst hk3
  rw [Option.bind_eq_some] at h
  obtain ⟨⟨f4, k4⟩, hp4, h⟩ := h
  obtain ⟨hb4, hk4⟩ := parseCat_eq_some _ _ _ _ _ _ hp4
  subst hk4
  rw [Option.bind_eq_some] at h
  obtain ⟨⟨f5, k5⟩, hp5, h⟩ := h
  obtain ⟨hb5, hk5⟩ := parseCat_eq_some _ _ _ _ _ _ hp5
  subst hk5
  rw [Option.bind_eq_some] at h
  obtain ⟨⟨f6, k6⟩, hp6, h⟩ := h
  obtain ⟨hb6, hk6⟩ := parseCat_eq_some _ _ _ _ _ _ hp6
  subst hk6
  rw [Option.bind_eq_some] at h
  obtain ⟨⟨f7, k7⟩, hp7, h⟩ := h
  obtain ⟨hb7, hk7⟩ := parseCat_eq_some _ _ _ _ _ _ hp7
  subst hk7
  rw [Option.bind_eq_some] at h
  obtain ⟨⟨f8, k8⟩, hp8, h⟩ := h
  obtain ⟨hb8, hk8⟩ := parseCat_eq_some _ _ _ _ _ _ hp8
  subst hk8
  rw [Option.map_eq_some'] at h
  obtain ⟨⟨f9, k9⟩, hp9, hfs⟩ := h
  obtain ⟨hb9, _⟩ := parseCat_eq_some _ _ _ _ _ _ hp9
  obtain ⟨tf, sf, htf, hsf, hbasic'⟩ :
      ∃ tf sf, secFacts doc.teams "team" "num_teams" = some tf ∧
        secFacts doc.slots "slot" "num_slots" = some sf ∧
        basic = tf ++ sf ++ phasedFacts doc.gameMode := by
    unfold parse_basic_structure at hbasic
    cases ht : secFacts doc.teams "team" "num_teams" with
    | none => rw [ht] at hbasic; exact absurd hbasic (by simp)
    | some tf =>
      cases hs : secFacts doc.slots "slot" "num_slots" with
      | none => rw [ht, hs] at hbasic; exact absurd hbasic (by simp)
      | some sf =>
        rw [ht, hs] at hbasic
        simp only [Option.some.injEq] at hbasic
        exact ⟨tf, sf, rfl, rfl, hbasic.symm⟩
  subst hbasic'
  exact ⟨tf, sf, f1, f2, f3, f4, f5, f6, f7, f8, f9, htf, hsf,
    hb1, hb2, hb3, hb4, hb5, hb6, hb7, hb8, hb9, hfs.symm⟩

/-- C9: every successfully emitted fact sequence is ordered as: header
    comment, blank line, structural section (teams facts, slots facts,
    phased flag, behind the section comment), blank line, then all
    constraint statements grouped in the fixed category order ca1, ca2,
    ca3, ca4, ga1, br1, br2, fa2, se1, each category's facts produced by
    the pure pass blocksFrom that walks its elements in document order. -/
theorem C9_fact_sequence_order (f : String) (doc : Doc) (fs : List String)
    (h : parse_xml_file_ok f doc = some fs) :
    ∃ tf sf f1 f2 f3 f4 f5 f6 f7 f8 f9,
      secFacts doc.teams "team" "num_teams" = some tf ∧
      secFacts doc.slots "slot" "num_slots" = some sf ∧
      blocksFrom .ca1 ca1Block 0 doc.ca1 = some f1 ∧
      blocksFrom .ca2 ca2Block 0 doc.ca2 = some f2 ∧
      blocksFrom .ca3 ca3Block 0 doc.ca3 = some f3 ∧
      blocksFrom .ca4 ca4Block 0 doc.ca4 = some f4 ∧
      blocksFrom .ga1 ga1Block 0 doc.ga1 = some f5 ∧
      blocksFrom .br1 br1Block 0 doc.br1 = some f6 ∧
      blocksFrom .br2 br2Block 0 doc.br2 = some f7 ∧
      blocksFrom .fa2 fa2Block 0 doc.fa2 = some f8 ∧
      blocksFrom .se1 se1Block 0 doc.se1 = some f9 ∧
      fs = ("% ASP facts generated from " ++ f) :: "" :: "% Basic structure" ::
        ((tf ++ sf ++ phasedFacts doc.gameMode) ++ ("" :: "% Constraints" ::
          (f1 ++ f2 ++ f3 ++ f4 ++ f5 ++ f6 ++ f7 ++ f8 ++ f9))) :=
  transcode_decomp f doc fs h

/-- C9 witness: the ordering theorem at a concrete document with teams,
    a phased flag and one fairness constraint. -/
theorem C9_fact_sequence_order_witness :
    ∃ tf sf f1 f2 f3 f4 f5 f6 f7 f8 f9,
      secFacts sampleDoc9.teams "team" "num_teams" = some tf ∧
      secFacts sampleDoc9.slots "slot" "num_slots" = some sf ∧
      blocksFrom .ca1 ca1Block 0 sampleDoc9.ca1 = some f1 ∧
      blocksFrom .ca2 ca2Block 0 sampleDoc9.ca2 = some f2 ∧
      blocksFrom .ca3 ca3Block 0 sampleDoc9.ca3 = some f3 ∧
      blocksFrom .ca4 ca4Block 0 sampleDoc9.ca4 = some f4 ∧
      blocksFrom .ga1 ga1Block 0 sampleDoc9.ga1 = some f5 ∧
      blocksFrom .br1 br1Block 0 sampleDoc9.br1 = some f6 ∧
      blocksFrom .br2 br2Block 0 sampleDoc9.br2 = some f7 ∧
      blocksFrom .fa2 fa2Block 0 sampleDoc9.fa2 = some f8 ∧
      blocksFrom .se1 se1Block 0 sampleDoc9.se1 = some f9 ∧
      ["% ASP facts generated from instance.xml", "", "% Basic structure",
       "team(0).", "team(1).", "num_teams(2).", "team(0..1).", "phased.",
       "", "% Constraints", "fa2_param(fa2_1, type, soft).",
       "fa2_param(fa2_1, intp, 1).", "fa2_param(fa2_1, penalty, 1)."] =
        ("% ASP facts generated from " ++ "instance.xml") :: "" ::
          "% Basic structure" ::
          ((tf ++ sf ++ phasedFacts sampleDoc9.gameMode) ++
            ("" :: "% Constraints" ::
              (f1 ++ f2 ++ f3 ++ f4 ++ f5 ++ f6 ++ f7 ++ f8 ++ f9))) :=
  C9_fact_sequence_order "instance.xml" sampleDoc9
    ["% ASP facts generated from instance.xml", "", "% Basic structure",
     "team(0).", "team(1).", "num_teams(2).", "team(0..1).", "phased.",
     "", "% Constraints", "fa2_param(fa2_1, type, soft).",
     "fa2_param(fa2_1, intp, 1).", "fa2_param(fa2_1, penalty, 1)."]
    rfl

/-- C3: in every successful transcode, for every category c, the k-th
    element of that category in document order (0-based) is emitted with
    the identifier built from c's name and the counter value k + 1,
    regardless of the element counts of the other eight categories (which
    never touch c's counter), and the counters start fresh at 0 for each
    invocation. -/
theorem C3_sequential_category_ids (f : String) (doc : Doc) (fs : List String)
    (h : parse_xml_file_ok f doc = some fs) (c : Cat) (k : Nat)
    (hk : k < (doc.catOf c).length) :
    ∃ cfs bfs,
      blocksFrom c (catBlock c) 0 (doc.catOf c) = some cfs ∧
      catBlock c (mkId c (k + 1)) ((doc.catOf c).get ⟨k, hk⟩) = some bfs := by
  obtain ⟨tf, sf, f1, f2, f3, f4, f5, f6, f7, f8, f9, _, _,
    h1, h2, h3, h4, h5, h6, h7, h8, h9, _⟩ := transcode_decomp f doc fs h
  have hcat : ∃ cfs, blocksFrom c (catBlock c) 0 (doc.catOf c) = some cfs := by
    cases c
    · exact ⟨f1, h1⟩
    · exact ⟨f2, h2⟩
    · exact ⟨f3, h3⟩
    · exact ⟨f4, h4⟩
    · exact ⟨f5, h5⟩
    · exact ⟨f6, h6⟩
    · exact ⟨f7, h7⟩
    · exact ⟨f8, h8⟩
    · exact ⟨f9, h9⟩
  obtain ⟨cfs, hcfs⟩ := hcat
  obtain ⟨bfs, hbfs⟩ :=
    blocksFrom_index c (catBlock c) (doc.catOf c) 0 cfs hcfs k hk
  have harith : 0 + k + 1 = k + 1 := by omega
  rw [harith] at hbfs
  exact ⟨cfs, bfs, hcfs, hbfs⟩

/-- C3 witness: the identifier theorem at a concrete document whose only
    constraint element is one CA1 element, which receives ca1_1. -/
theorem C3_sequential_category_ids_witness :
    ∃ cfs bfs,
      blocksFrom Cat.ca1 (catBlock Cat.ca1) 0 (sampleDocCA1.catOf Cat.ca1) =
        some cfs ∧
      catBlock Cat.ca1 (mkId Cat.ca1 (0 + 1))
        ((sampleDocCA1.catOf Cat.ca1).get ⟨0, by decide⟩) = some bfs :=
  C3_sequential_category_ids "f" sampleDocCA1
    ["% ASP facts generated from f", "", "% Basic structure", "",
     "% Constraints", "ca1_param(ca1_1, type, hard).",
     "ca1_param(ca1_1, max, 0).", "ca1_param(ca1_1, min, 0).",
     "ca1_param(ca1_1, mode, \"H\").", "ca1_param(ca1_1, penalty, 1)."]
    rfl Cat.ca1 0 (by decide)

lemma catBlock_noAttrs_isSome (c : Cat) (cid : String) :
    (catBlock c cid noAttrs).isSome := by
  cases c <;> rfl

lemma parseCat_noAttrs_isSome (c : Cat)
    (block : String → Attrs → Option (List String))
    (hbl : ∀ cid, (block cid noAttrs).isSome) (es : List Attrs) :
    (∀ e ∈ es, e = noAttrs) → ∀ k : CounterMap,
      (parseCat c block es k).isSome := by
  induction es with
  | nil =>
    intro _ k
    rfl
  | cons e es ih =>
    intro hes k
    have he : e = noAttrs := hes e (List.mem_cons_self e es)
    subst he
    simp only [parseCat, get_constraint_id]
    obtain ⟨bfs, hb⟩ := Option.isSome_iff_exists.mp (hbl (mkId c (k c + 1)))
    obtain ⟨p, hp⟩ := Option.isSome_iff_exists.mp
      (ih (fun e' he' => hes e' (List.mem_cons_of_mem _ he'))
        (fun c' => if c' = c then k c + 1 else k c'))
    rw [hb, hp]
    rfl

lemma optMapM_getId_isSome (es : List Attrs) :
    (∀ e ∈ es, (getId e).isSome) → (optMapM getId es).isSome := by
  induction es with
  | nil =>
    intro _
    rfl
  | cons e es ih =>
    intro h
    simp only [optMapM]
    obtain ⟨i, hi⟩ := Option.isSome_iff_exists.mp (h e (List.mem_cons_self e es))
    obtain ⟨l, hl⟩ := Option.isSome_iff_exists.mp
      (ih (fun x hx => h x (List.mem_cons_of_mem _ hx)))
    rw [hi, hl]
    rfl

/-- C8 amended: no absence of any attribute on any constraint element is
    ever fatal (every such absence silently resolves to the documented
    default) and the whole transcode runs to completion, provided every
    team and slot element carries a well-formed id attribute; the absence
    of the id attribute itself on a team or slot element, however, is
    fatal (C8_counterexample). -/
theorem C8_attribute_absence_not_fatal (fname : String) (doc : Doc)
    (tes ses : List Attrs)
    (hteams : doc.teams = some tes) (hslots : doc.slots = some ses)
    (ht : ∀ e ∈ tes, (getId e).isSome) (hs : ∀ e ∈ ses, (getId e).isSome)
    (h1 : ∀ e ∈ doc.ca1, e = noAttrs) (h2 : ∀ e ∈ doc.ca2, e = noAttrs)
    (h3 : ∀ e ∈ doc.ca3, e = noAttrs) (h4 : ∀ e ∈ doc.ca4, e = noAttrs)
    (h5 : ∀ e ∈ doc.ga1, e = noAttrs) (h6 : ∀ e ∈ doc.br1, e = noAttrs)
    (h7 : ∀ e ∈ doc.br2, e = noAttrs) (h8 : ∀ e ∈ doc.fa2, e = noAttrs)
    (h9 : ∀ e ∈ doc.se1, e = noAttrs) :
    (parse_xml_file_ok fname doc).isSome := by
  obtain ⟨tl, htl⟩ := Option.isSome_iff_exists.mp (optMapM_getId_isSome tes ht)
  obtain ⟨sl, hsl⟩ := Option.isSome_iff_exists.mp (optMapM_getId_isSome ses hs)
  have hsec1 : secFacts doc.teams "team" "num_teams" =
      some (idFacts "team" "num_teams" tl) := by
    rw [hteams]
    simp only [secFacts]
    rw [htl]
    rfl
  have hsec2 : secFacts doc.slots "slot" "num_slots" =
      some (idFacts "slot" "num_slots" sl) := by
    rw [hslots]
    simp only [secFacts]
    rw [hsl]
    rfl
  have hbasic : parse_basic_structure doc =
      some (idFacts "team" "num_teams" tl ++ idFacts "slot" "num_slots" sl ++
        phasedFacts doc.gameMode) := by
    unfold parse_basic_structure
    rw [hsec1, hsec2]
  unfold parse_xml_file_ok parse_ca1_constraints parse_ca2_constraints
    parse_ca3_constraints parse_ca4_constraints parse_ga1_constraints
    parse_br1_constraints parse_br2_constraints parse_fa2_constraints
    parse_se1_constraints
  rw [hbasic]
  simp only [Option.some_bind]
  obtain ⟨p1, hp1⟩ := Option.isSome_iff_exists.mp
    (parseCat_noAttrs_isSome Cat.ca1 ca1Block
      (fun cid => catBlock_noAttrs_isSome Cat.ca1 cid) doc.ca1 h1 (fun _ => 0))
  rw [hp1]
  simp only [Option.some_bind]
  obtain ⟨p2, hp2⟩ := Option.isSome_iff_exists.mp
    (parseCat_noAttrs_isSome Cat.ca2 ca2Block
      (fun cid => catBlock_noAttrs_isSome Cat.ca2 cid) doc.ca2 h2 p1.2)
  rw [hp2]
  simp only [Option.some_bind]
  obtain ⟨p3, hp3⟩ := Option.isSome_iff_exists.mp
    (parseCat_noAttrs_isSome Cat.ca3 ca3Block
      (fun cid => catBlock_noAttrs_isSome Cat.ca3 cid) doc.ca3 h3 p2.2)
  rw [hp3]
  simp only [Option.some_bind]
  obtain ⟨p4, hp4⟩ := Option.isSome_iff_exists.mp
    (parseCat_noAttrs_isSome Cat.ca4 ca4Block
      (fun cid => catBlock_noAttrs_isSome Cat.ca4 cid) doc.ca4 h4 p3.2)
  rw [hp4]
  simp only [Option.some_bind]
  obtain ⟨p5, hp5⟩ := Option.isSome_iff_exists.mp
    (parseCat_noAttrs_isSome Cat.ga1 ga1Block
      (fun cid => catBlock_noAttrs_isSome Cat.ga1 cid) doc.ga1 h5 p4.2)
  rw [hp5]
  simp only [Option.some_bind]
  obtain ⟨p6, hp6⟩ := Option.isSome_iff_exists.mp
    (parseCat_noAttrs_isSome Cat.br1 br1Block
      (fun cid => catBlock_noAttrs_isSome Cat.br1 cid) doc.br1 h6 p5.2)
  rw [hp6]
  simp only [Option.some_bind]
  obtain ⟨p7, hp7⟩ := Option.isSome_iff_exists.mp
    (parseCat_noAttrs_isSome Cat.br2 br2Block
      (fun cid => catBlock_noAttrs_isSome Cat.br2 cid) doc.br2 h7 p6.2)
  rw [hp7]
  simp only [Option.some_bind]
  obtain ⟨p8, hp8⟩ := Option.isSome_iff_exists.mp
    (parseCat_noAttrs_isSome Cat.fa2 fa2Block
      (fun cid => catBlock_noAttrs_isSome Cat.fa2 cid) doc.fa2 h8 p7.2)
  rw [hp8]
  simp only [Option.some_bind]
  obtain ⟨p9, hp9⟩ := Option.isSome_iff_exists.mp
    (parseCat_noAttrs_isSome Cat.se1 se1Block
      (fun cid => catBlock_noAttrs_isSome Cat.se1 cid) doc.se1 h9 p8.2)
  rw [hp9]
  rfl

/-- C8 witness: the amended claim at a concrete document with empty
    Teams and Slots sections and one attribute-less CA1 element. -/
theorem C8_attribute_absence_not_fatal_witness :
    (parse_xml_file_ok "instance.xml" sampleNoAttrsDoc).isSome :=
  C8_attribute_absence_not_fatal "instance.xml" sampleNoAttrsDoc [] []
    rfl rfl (by simp) (by simp)
    (by intro e he; simp [sampleNoAttrsDoc] at he; exact he)
    (by simp [sampleNoAttrsDoc]) (by simp [sampleNoAttrsDoc])
    (by simp [sampleNoAttrsDoc]) (by simp [sampleNoAttrsDoc])
    (by simp [sampleNoAttrsDoc]) (by simp [sampleNoAttrsDoc])
    (by simp [sampleNoAttrsDoc]) (by simp [sampleNoAttrsDoc])

end ITC2021
